import Mathlib

/-!
Verification development for the tick-feature-extraction and multi-run
consensus signal engine of the volatile-insight-nexus dashboard.

The source (src/hooks/usePredictionEngine.ts and
src/hooks/useAdvancedPredictionEngine.ts) is embedded shallowly over ℚ:

* JavaScript numbers are modelled as rationals; where the source divides,
  the model uses rational division (in Lean, division by zero yields 0 —
  every place where this matters for a claim is discussed at that claim).
* `Math.sqrt` and `Math.tanh` are irrational real functions; they are
  passed to the embedded definitions as explicit function parameters
  `sq`, `th : ℚ → ℚ`.  Theorems that depend on a property of the real
  function (for instance `Math.tanh 0 = 0`) take that property as a
  hypothesis, so they hold in particular for the real interpretation.
* Each `Math.random()` call site receives its draw as an explicit
  argument (a rational in `[0,1)`), one independent draw per call,
  matching the source's one-call-per-loop-iteration structure.
* React state reads inside a callback see the state captured when the
  callback was created (the pre-call state), and `set*` calls produce the
  post-call state; the engine step `performAnalysis` is therefore a pure
  state-transition function from the pre-call `EngineState` to the
  post-call one.  In particular `generateSignal` reads the *previous*
  published feature snapshot (`features` React state), exactly as the
  stale closure in the source does.
-/

/-- One market tick.  The source's `DerivTick` also carries `id`, `symbol`,
`timestamp` and `raw`; the engine core reads only `price` and `lastDigit`,
so only those are modelled. -/
structure DerivTick where
  price : ℚ
  lastDigit : Fin 10
  deriving Repr, DecidableEq

/-- `PredictionFeatures` of src/types/deriv.ts (the fields the basic engine
fills).  `digitHistogram` is a total map from the ten digit keys the
extractor always writes. -/
structure PredictionFeatures where
  mean : ℚ
  std : ℚ
  lastDeltas : List ℚ
  signChanges : ℕ
  digitHistogram : Fin 10 → ℚ
  averageVelocity : ℚ
  spikeIndicator : Bool
  volatility : ℚ

/-- `DigitPrediction` of src/types/deriv.ts. -/
structure DigitPrediction where
  digit : Fin 10
  probability : ℚ
  confidence : ℚ

/-- `BandPrediction` of src/types/deriv.ts (basic variant). -/
structure BandPrediction where
  over2 : ℚ
  under7 : ℚ
  confidence : ℚ

/-- The band label of a `RunResult`: `'over2' | 'under7' | 'none'`. -/
inductive Band where
  | over2
  | under7
  | none
  deriving Repr, DecidableEq

/-- One per-cycle record in the consensus accumulator
(`runResultsRef.current` entries). -/
structure RunResult where
  digit : Fin 10
  band : Band
  deriving Repr, DecidableEq

/-- `TradingSignal.type`. -/
inductive SignalType where
  | exact_digit
  | over_under
  deriving Repr, DecidableEq

/-- `TradingSignal.status`. -/
inductive SignalStatus where
  | pending
  | executed
  | expired
  | cancelled
  deriving Repr, DecidableEq

/-- `TradingSignal` of src/types/deriv.ts.  `id` is modelled as a number
(the source uses a uuid string supplied by an external generator). -/
structure TradingSignal where
  id : ℕ
  symbol : String
  timestamp : ℕ
  type : SignalType
  predicted_digit : Option (Fin 10)
  predicted_band : Option Band
  confidence : ℚ
  runs : ℕ
  status : SignalStatus
  features : PredictionFeatures

/-- The fields of `RiskSettings` the engine core reads. -/
structure RiskSettings where
  probabilityThreshold : ℚ
  requiredRuns : ℕ
  stake : ℚ

/-- The React state owned by `usePredictionEngine` that the analysis step
reads and writes. -/
structure EngineState where
  signals : List TradingSignal
  runCount : ℕ
  runResults : List RunResult
  features : Option PredictionFeatures
  digitPredictions : List DigitPrediction
  bandPrediction : Option BandPrediction
  isAnalyzing : Bool

/-- `Math.sign`, restricted to the rational inputs the model produces. -/
def qsign (q : ℚ) : ℤ :=
  if q < 0 then -1 else if q = 0 then 0 else 1

/-- JavaScript `x || 0.1` applied to a histogram entry: a `0` entry (falsy)
is replaced by `0.1`, any other entry is kept. -/
def orPointOne (x : ℚ) : ℚ :=
  if x = 0 then 1/10 else x

/-- The histogram read `features.digitHistogram[digit.toString()] || 0.1`
shared by all four predictor functions. -/
def histProb (h : Fin 10 → ℚ) (d : Fin 10) : ℚ :=
  orPointOne (h d)

/-- `Math.min (Math.max x lo) hi`. -/
def clampQ (lo hi x : ℚ) : ℚ :=
  min (max x lo) hi

/-- `extractFeatures` (src/hooks/usePredictionEngine.ts, lines 24-69).
`sq` stands for `Math.sqrt`.  Note the unguarded `volatility = std / mean`
of line 57: when `mean = 0` the source file computes `Infinity`/`NaN`
(here, by Lean's convention, `0`) and still returns a snapshot. -/
def extractFeatures (sq : ℚ → ℚ) (tickData : List DerivTick) :
    Option PredictionFeatures :=
  if tickData.length < 10 then Option.none else
  let recentTicks := tickData.drop (tickData.length - 30)
  let prices := recentTicks.map (fun t => t.price)
  let mean := prices.sum / (prices.length : ℚ)
  let variance := (prices.map (fun p => (p - mean) ^ 2)).sum / (prices.length : ℚ)
  let std := sq variance
  let deltas := List.zipWith (fun a b => a - b) (prices.drop 1) prices
  let lastDeltas := deltas.drop (deltas.length - 5)
  let averageVelocity := (deltas.map (fun d => |d|)).sum / (deltas.length : ℚ)
  let signChanges :=
    (List.zipWith (fun a b => if qsign a ≠ qsign b then (1 : ℕ) else 0)
      (deltas.drop 1) deltas).sum
  let digits := recentTicks.map (fun t => t.lastDigit)
  let digitHistogram : Fin 10 → ℚ := fun i =>
    ((digits.filter (fun d => d = i)).length : ℚ) / (digits.length : ℚ)
  let spikeThreshold := std * 2
  let spikeIndicator := decide (spikeThreshold < |(deltas.getLast?).getD 0|)
  let volatility := std / mean
  some {
    mean := mean
    std := std
    lastDeltas := lastDeltas
    signChanges := signChanges
    digitHistogram := digitHistogram
    averageVelocity := averageVelocity
    spikeIndicator := spikeIndicator
    volatility := volatility
  }

/-- The per-digit confidence of `predictDigit`
(src/hooks/usePredictionEngine.ts, lines 117-122).  It reads only the
feature snapshot — neither the digit, the probability, nor the jitter. -/
def digitConfidence (F : PredictionFeatures) : ℚ :=
  min ((if 0 < F.std then 1 - F.volatility / (5/100) else 1/2) +
       (if F.signChanges < 5 then 2/10 else 0) +
       (if F.spikeIndicator then 1/10 else 0))
      1

/-- The per-digit blended probability of `predictDigit` after the
`[0.01, 0.9]` clamp of line 110 (src/hooks/usePredictionEngine.ts,
lines 75-110).  `th` stands for `Math.tanh`; `rv d` is the
`Math.random()` draw of the volatility adjustment for digit `d`. -/
def digitProbClamped (th : ℚ → ℚ) (F : PredictionFeatures)
    (rv : Fin 10 → ℚ) (d : Fin 10) : ℚ :=
  let frequencyWeight : ℚ := 4/10
  let baseProb := histProb F.digitHistogram d
  let trendWeight : ℚ := 3/10
  let recentDeltas := F.lastDeltas.drop (F.lastDeltas.length - 3)
  let trendDirection := recentDeltas.sum
  let trendAdjustment := th (trendDirection / F.std) * (1/10)
  let volatilityWeight : ℚ := 2/10
  let volatilityFactor := min (F.volatility * 10) 1
  let volatilityAdjustment := volatilityFactor * (rv d - 1/2) * (15/100)
  let meanReversionWeight : ℚ := 1/10
  let currentPrice := F.mean
  let priceDeviation := |currentPrice - F.mean| / F.std
  let meanReversionAdjustment :=
    if 2 < priceDeviation then (if (d : ℕ) < 5 then (1/10 : ℚ) else -(1/10)) else 0
  let spikeAdjustment :=
    if F.spikeIndicator then
      (if (d : ℕ) = 0 ∨ (d : ℕ) = 9 then (2/10 : ℚ) else -(1/10))
    else 0
  let probability :=
    baseProb * frequencyWeight +
    (baseProb + trendAdjustment) * trendWeight +
    (baseProb + volatilityAdjustment) * volatilityWeight +
    (baseProb + meanReversionAdjustment) * meanReversionWeight +
    spikeAdjustment
  clampQ (1/100) (9/10) probability

/-- The value `predictDigit` pushes into its `predictions` array — the
clamped blend *after* the model-uncertainty multiplication of lines
113-114 — i.e. the numerator of the final normalization step.
`ru d` is the `Math.random()` draw of the uncertainty for digit `d`. -/
def digitProbPreNorm (th : ℚ → ℚ) (F : PredictionFeatures)
    (rv ru : Fin 10 → ℚ) (d : Fin 10) : ℚ :=
  let uncertainty := 1/10 + ru d * (2/10)
  digitProbClamped th F rv d * (1 - uncertainty)

/-- `predictDigit` (src/hooks/usePredictionEngine.ts, lines 72-133):
the loop over digits 0-9 followed by the normalization of lines 127-132. -/
def predictDigit (th : ℚ → ℚ) (F : PredictionFeatures)
    (rv ru : Fin 10 → ℚ) : List DigitPrediction :=
  let predictions := (List.finRange 10).map (fun d =>
    { digit := d
      probability := digitProbPreNorm th F rv ru d
      confidence := digitConfidence F : DigitPrediction })
  let total := (predictions.map (fun p => p.probability)).sum
  predictions.map (fun p => { p with probability := p.probability / total })

/-- `predictBand` (src/hooks/usePredictionEngine.ts, lines 136-208).
It contains no `Math.random()` call. -/
def predictBand (F : PredictionFeatures) : BandPrediction :=
  let over2Digits : List (Fin 10) := [3, 4, 5, 6, 7, 8, 9]
  let over2BaseProb :=
    (over2Digits.map (fun d => histProb F.digitHistogram d)).sum /
      (over2Digits.length : ℚ)
  let under7Digits : List (Fin 10) := [0, 1, 2, 3, 4, 5, 6]
  let under7BaseProb :=
    (under7Digits.map (fun d => histProb F.digitHistogram d)).sum /
      (under7Digits.length : ℚ)
  let recentTrend := (F.lastDeltas.drop (F.lastDeltas.length - 3)).sum
  let trendStrength := |recentTrend| / F.std
  let trendDirection := qsign recentTrend
  let volatilityFactor := min (F.volatility * 20) 1
  let volatilityBoost := volatilityFactor * (15/100)
  let priceDeviation := |F.mean - F.mean| / F.std
  let meanReversionBoost := if (3/2 : ℚ) < priceDeviation then (1/10 : ℚ) else 0
  let spikeBoost := if F.spikeIndicator then (2/10 : ℚ) else 0
  let over2Prob₀ := over2BaseProb
  let under7Prob₀ := under7BaseProb
  let over2Prob₁ :=
    if 0 < trendDirection ∧ 1/2 < trendStrength then over2Prob₀ + 1/10
    else if trendDirection < 0 ∧ 1/2 < trendStrength then over2Prob₀ - 5/100
    else over2Prob₀
  let under7Prob₁ :=
    if 0 < trendDirection ∧ 1/2 < trendStrength then under7Prob₀ - 5/100
    else if trendDirection < 0 ∧ 1/2 < trendStrength then under7Prob₀ + 1/10
    else under7Prob₀
  let over2Prob₂ := over2Prob₁ + volatilityBoost + meanReversionBoost + spikeBoost
  let under7Prob₂ := under7Prob₁ + volatilityBoost + meanReversionBoost + spikeBoost
  let over2Prob := clampQ (1/10) (9/10) over2Prob₂
  let under7Prob := clampQ (1/10) (9/10) under7Prob₂
  let confidence :=
    min (1/2 +
         (if F.signChanges < 3 then (2/10 : ℚ) else 0) +
         (if F.spikeIndicator then (1/10 : ℚ) else 0) +
         (if 1/10 < |over2Prob - under7Prob| then (2/10 : ℚ) else 0))
        1
  { over2 := over2Prob, under7 := under7Prob, confidence := confidence }

/-- Stable descending insertion of a prediction into a list already sorted
by descending probability: the new element goes after every element with
probability ≥ its own. -/
def insertByProbDesc (p : DigitPrediction) :
    List DigitPrediction → List DigitPrediction
  | [] => [p]
  | q :: t =>
    if q.probability < p.probability then p :: q :: t
    else q :: insertByProbDesc p t

/-- The stable descending-by-probability sort performed in place by
`digitPreds.sort((a, b) => b.probability - a.probability)`
(src/hooks/usePredictionEngine.ts, line 249).  JavaScript's `sort` is
stable, so equal probabilities keep their original (ascending-digit)
order; stable sorts are unique as functions, so insertion sort models
it exactly. -/
def sortByProbDesc (l : List DigitPrediction) : List DigitPrediction :=
  l.foldr insertByProbDesc []

/-- `digitPreds.sort((a, b) => b.probability - a.probability)[0]`:
the first element of the stably-descending-sorted predictions, i.e. the
lowest digit among those of maximal probability.  The dummy default is
unreachable on the ten-element lists the engine produces. -/
def topDigitPrediction (l : List DigitPrediction) : DigitPrediction :=
  (sortByProbDesc l).headD { digit := 0, probability := 0, confidence := 0 }

/-- Number of accumulated runs voting for digit `d`
(the `digitVotes` tally of src/hooks/usePredictionEngine.ts, line 267). -/
def digitVoteCount (rs : List RunResult) (d : Fin 10) : ℕ :=
  (rs.filter (fun r => r.digit = d)).length

/-- The digit selected by
`Object.entries(digitVotes).sort(([,a],[,b]) => b - a)[0]`: JavaScript
object entries with integer-like keys iterate in ascending numeric order
and the sort is stable, so the winner is the lowest digit of maximal vote
count. -/
def digitWinner (rs : List RunResult) : Fin 10 :=
  (List.finRange 10).foldl
    (fun best d => if digitVoteCount rs best < digitVoteCount rs d then d else best) 0

/-- Number of accumulated runs voting for band `b`
(the `bandVotes` tally of src/hooks/usePredictionEngine.ts, line 268). -/
def bandVoteCount (rs : List RunResult) (b : Band) : ℕ :=
  (rs.filter (fun r => r.band = b)).length

/-- The distinct band labels of the accumulated runs in order of first
occurrence — the iteration order of the string-keyed `bandVotes` object
(JavaScript string keys iterate in insertion order). -/
def firstOccurrences (l : List Band) : List Band :=
  l.foldl (fun acc b => if b ∈ acc then acc else acc ++ [b]) []

/-- `Object.entries(bandVotes).sort(([,a],[,b]) => b - a)[0]`: the first
label of maximal count in first-occurrence order (stable sort), or none
when no run was accumulated. -/
def bandWinner (rs : List RunResult) : Option Band :=
  match firstOccurrences (rs.map (fun r => r.band)) with
  | [] => Option.none
  | b :: t =>
    some (t.foldl (fun best x =>
      if bandVoteCount rs best < bandVoteCount rs x then x else best) b)

/-- `generateSignal` (src/hooks/usePredictionEngine.ts, lines 320-357) as
a transformation of the signal log.  `stateFeatures` is the `features`
React state captured by the callback's closure — the snapshot published by
a *previous* analysis run; when it is absent the function returns without
appending (line 329).  `confidence || 0.5` and `runs || 1` replace falsy
(zero) arguments; `[signal, ...prev].slice(0, 50)` caps the log at 50. -/
def generateSignal (sym : String) (stateFeatures : Option PredictionFeatures)
    (newId now : ℕ) (ty : SignalType) (predictedDigit : Option (Fin 10))
    (predictedBand : Option Band) (conf : ℚ) (runs : ℕ)
    (signals : List TradingSignal) : List TradingSignal :=
  match stateFeatures with
  | Option.none => signals
  | some f =>
    ({ id := newId
       symbol := sym
       timestamp := now
       type := ty
       predicted_digit := predictedDigit
       predicted_band := predictedBand
       confidence := if conf = 0 then 1/2 else conf
       runs := if runs = 0 then 1 else runs
       status := SignalStatus.pending
       features := f : TradingSignal } :: signals).take 50

/-- The `RunResult` appended on each analysis run
(src/hooks/usePredictionEngine.ts, lines 249-255): the run's top digit
and — unless that digit's probability alone already reached the
threshold — the currently favoured band. -/
def currentRunResult (st : RiskSettings) (digitPreds : List DigitPrediction)
    (bandPred : BandPrediction) : RunResult :=
  let topDigit := topDigitPrediction digitPreds
  let topBand := if bandPred.under7 < bandPred.over2 then Band.over2 else Band.under7
  { digit := topDigit.digit
    band := if st.probabilityThreshold ≤ topDigit.probability then Band.none else topBand }

/-- `bandConsensus` of src/hooks/usePredictionEngine.ts, line 280: the
winning band, nulled out when it is the `'none'` sentinel (or when there
are no accumulated runs at all). -/
def bandConsensusOf (rs : List RunResult) : Option Band :=
  match bandWinner rs with
  | Option.none => Option.none
  | some b => if b = Band.none then Option.none else some b

/-- `bandVoteCount` of src/hooks/usePredictionEngine.ts, line 281: the
winning band's vote count (0 when there is no winner). -/
def bandVotesOf (rs : List RunResult) : ℕ :=
  match bandWinner rs with
  | Option.none => 0
  | some b => bandVoteCount rs b

/-- The consensus evaluation of src/hooks/usePredictionEngine.ts,
lines 261-299, producing the new signal log: tally votes, pick winners,
and — only when `active` — fire at most one signal, digit first, band
only if the digit condition failed. -/
def evaluateConsensus (st : RiskSettings) (active : Bool) (sym : String)
    (newId now : ℕ) (rs : List RunResult) (topDigit : DigitPrediction)
    (bandPred : BandPrediction) (runCount : ℕ)
    (s : EngineState) : List TradingSignal :=
  let consensusDigit := digitWinner rs
  let digitVotes := digitVoteCount rs consensusDigit
  if active then
    if st.requiredRuns ≤ digitVotes ∧ st.probabilityThreshold ≤ topDigit.probability then
      generateSignal sym s.features newId now SignalType.exact_digit
        (some consensusDigit) Option.none topDigit.confidence runCount s.signals
    else
      match bandConsensusOf rs with
      | some b =>
        if st.requiredRuns ≤ bandVotesOf rs ∧ st.probabilityThreshold ≤ bandPred.confidence then
          generateSignal sym s.features newId now SignalType.over_under
            Option.none (some b) bandPred.confidence runCount s.signals
        else s.signals
      | Option.none => s.signals
  else s.signals

/-- `performAnalysis` (src/hooks/usePredictionEngine.ts, lines 211-317) as
a step function on the engine state: guard on the buffer length, extract
a snapshot, publish it and both predictions, append a `RunResult`, and on
the fourth accumulated run evaluate the consensus and reset the
accumulator and counter. -/
def performAnalysis (sq th : ℚ → ℚ) (rv ru : Fin 10 → ℚ) (sym : String)
    (ticks : List DerivTick) (st : RiskSettings) (active : Bool)
    (newId now : ℕ) (s : EngineState) : EngineState :=
  if ticks.length < 10 then s else
  match extractFeatures sq ticks with
  | Option.none => s
  | some F =>
    let digitPreds := predictDigit th F rv ru
    let bandPred := predictBand F
    let runCount := s.runCount + 1
    let topDigit := topDigitPrediction digitPreds
    let rs := s.runResults ++ [currentRunResult st digitPreds bandPred]
    if 4 ≤ runCount then
      { signals := evaluateConsensus st active sym newId now rs topDigit bandPred runCount s
        runCount := 0
        runResults := []
        features := some F
        digitPredictions := sortByProbDesc digitPreds
        bandPrediction := some bandPred
        isAnalyzing := false }
    else
      { s with
        runCount := runCount
        runResults := rs
        features := some F
        digitPredictions := sortByProbDesc digitPreds
        bandPrediction := some bandPred
        isAnalyzing := true }

/-- `marketRegime` labels of the advanced extractor. -/
inductive MarketRegime where
  | trending
  | ranging
  | volatile
  | calm
  deriving Repr, DecidableEq

/-- `volatilityRegime` labels of the advanced extractor. -/
inductive VolatilityRegime where
  | low
  | medium
  | high
  | extreme
  deriving Repr, DecidableEq

/-- The advanced `PredictionFeatures` (the optional fields of the TS
interface that `extractAdvancedFeatures` always fills). -/
structure AdvancedFeatures where
  mean : ℚ
  std : ℚ
  lastDeltas : List ℚ
  signChanges : ℕ
  digitHistogram : Fin 10 → ℚ
  averageVelocity : ℚ
  spikeIndicator : Bool
  volatility : ℚ
  priceAcceleration : ℚ
  momentum : ℚ
  trendStrength : ℚ
  volatilityClusters : List ℕ
  digitSequences : List (Fin 10)
  marketRegime : MarketRegime
  crossVolatilityCorrelation : List (String × ℚ)
  volatilityRegime : VolatilityRegime

/-- `calculateCorrelation` (src/hooks/useAdvancedPredictionEngine.ts,
lines 161-175). -/
def calculateCorrelation (sq : ℚ → ℚ) (x y : List ℚ) : ℚ :=
  if x.length ≠ y.length ∨ x.length = 0 then 0
  else
    let n : ℚ := x.length
    let sumX := x.sum
    let sumY := y.sum
    let sumXY := (List.zipWith (fun a b => a * b) x y).sum
    let sumX2 := (x.map (fun v => v * v)).sum
    let sumY2 := (y.map (fun v => v * v)).sum
    let numerator := n * sumXY - sumX * sumY
    let denominator := sq ((n * sumX2 - sumX * sumX) * (n * sumY2 - sumY * sumY))
    if denominator = 0 then 0 else numerator / denominator

/-- `extractAdvancedFeatures` (src/hooks/useAdvancedPredictionEngine.ts,
lines 43-158).  `sym` is the hook's symbol and `allVol` the
`allVolatilityData` map (an injected read-only dependency).  As in the
basic extractor, `volatility = std / mean` (line 137) is unguarded. -/
def extractAdvancedFeatures (sq : ℚ → ℚ) (sym : String)
    (allVol : List (String × List DerivTick)) (tickData : List DerivTick) :
    Option AdvancedFeatures :=
  if tickData.length < 20 then Option.none else
  let recentTicks := tickData.drop (tickData.length - 50)
  let prices := recentTicks.map (fun t => t.price)
  let digits := recentTicks.map (fun t => t.lastDigit)
  let mean := prices.sum / (prices.length : ℚ)
  let variance := (prices.map (fun p => (p - mean) ^ 2)).sum / (prices.length : ℚ)
  let std := sq variance
  let deltas := List.zipWith (fun a b => a - b) (prices.drop 1) prices
  let lastDeltas := deltas.drop (deltas.length - 10)
  let averageVelocity := (deltas.map (fun d => |d|)).sum / (deltas.length : ℚ)
  let priceAcceleration :=
    if 1 < deltas.length then
      ((deltas.drop (deltas.length - 3)).enum.map (fun p =>
        p.2 - (if ((deltas.length : ℤ) + p.1) - 4 < 0 then 0
               else (deltas.get? (deltas.length + p.1 - 4)).getD 0))).sum / 3
    else 0
  let momentum := (deltas.drop (deltas.length - 5)).sum
  let trendStrength := |momentum| / (std * sq 5)
  let signChanges :=
    (List.zipWith (fun a b => if qsign a ≠ qsign b then (1 : ℕ) else 0)
      (deltas.drop 1) deltas).sum
  let digitHistogram : Fin 10 → ℚ := fun i =>
    ((digits.filter (fun d => d = i)).length : ℚ) / (digits.length : ℚ)
  let digitSequences :=
    (List.zipWith (fun a b => if a = b then some a else Option.none)
      (digits.drop 1) digits).filterMap id
  let clusterThreshold := std * (3/2)
  let volatilityClusters :=
    (deltas.foldl (fun (acc : List ℕ × ℕ) d =>
      if clusterThreshold < |d| then (acc.1, acc.2 + 1)
      else if 0 < acc.2 then (acc.1 ++ [acc.2], 0) else acc) ([], 0)).1
  let marketRegime :=
    if (7/10 : ℚ) < trendStrength then MarketRegime.trending
    else if 8 < signChanges then MarketRegime.volatile
    else if std / mean < 1/100 then MarketRegime.calm
    else MarketRegime.ranging
  let crossVolatilityCorrelation :=
    allVol.filterMap (fun pr =>
      if pr.1 ≠ sym ∧ 0 < pr.2.length then
        some (pr.1,
          calculateCorrelation sq (prices.drop (prices.length - 20))
            ((pr.2.drop (pr.2.length - 20)).map (fun t => t.price)))
      else Option.none)
  let vr := std / mean
  let volatilityRegime :=
    if vr < 1/100 then VolatilityRegime.low
    else if vr < 2/100 then VolatilityRegime.medium
    else if vr < 5/100 then VolatilityRegime.high
    else VolatilityRegime.extreme
  let spikeThreshold := std * (5/2)
  let spikeIndicator := decide (spikeThreshold < |(deltas.getLast?).getD 0|)
  let volatility := std / mean
  some {
    mean := mean
    std := std
    lastDeltas := lastDeltas
    signChanges := signChanges
    digitHistogram := digitHistogram
    averageVelocity := averageVelocity
    spikeIndicator := spikeIndicator
    volatility := volatility
    priceAcceleration := priceAcceleration
    momentum := momentum
    trendStrength := trendStrength
    volatilityClusters := volatilityClusters
    digitSequences := digitSequences
    marketRegime := marketRegime
    crossVolatilityCorrelation := crossVolatilityCorrelation
    volatilityRegime := volatilityRegime
  }

/-- The advanced `DigitPrediction` with the extra per-digit fields. -/
structure AdvancedDigitPrediction where
  digit : Fin 10
  probability : ℚ
  confidence : ℚ
  timeHorizon : ℕ
  volatilityImpact : ℚ
  trendAlignment : ℚ
  sequencePattern : Bool
  marketRegimeAlignment : ℚ

/-- The `{low: 0.5, medium: 1.0, high: 1.5, extreme: 2.0}` lookup used by
both advanced predictors (the `|| 1.0` fallback is dead: every key is
present and every value truthy). -/
def volRegimeMultiplier : VolatilityRegime → ℚ
  | VolatilityRegime.low => 1/2
  | VolatilityRegime.medium => 1
  | VolatilityRegime.high => 3/2
  | VolatilityRegime.extreme => 2

/-- The volatility adjustment of `predictDigitAdvanced` for digit `d`
(src/hooks/useAdvancedPredictionEngine.ts, line 200); `rv d` is that
iteration's `Math.random()` draw. -/
def advVolatilityAdjustment (F : AdvancedFeatures) (rv : Fin 10 → ℚ)
    (d : Fin 10) : ℚ :=
  (rv d - 1/2) * (1/10) * volRegimeMultiplier F.volatilityRegime

/-- The trend adjustment of `predictDigitAdvanced` for digit `d`
(src/hooks/useAdvancedPredictionEngine.ts, lines 189-190). -/
def advTrendAdjustment (th : ℚ → ℚ) (F : AdvancedFeatures) (d : Fin 10) : ℚ :=
  th (F.momentum / F.std) * (15/100) * (if 4 < (d : ℕ) then 1 else -1)

/-- The market-regime adjustment of `predictDigitAdvanced` for digit `d`
(src/hooks/useAdvancedPredictionEngine.ts, lines 204-211); `rr d` is the
`Math.random()` draw of the volatile branch. -/
def advRegimeAdjustment (F : AdvancedFeatures) (rr : Fin 10 → ℚ)
    (d : Fin 10) : ℚ :=
  match F.marketRegime with
  | MarketRegime.trending => F.trendStrength * (1/10) * (if 4 < (d : ℕ) then 1 else -1)
  | MarketRegime.volatile => (rr d - 1/2) * (2/10)
  | MarketRegime.calm => -(5/100)
  | MarketRegime.ranging => 0

/-- The clamped per-digit blend of `predictDigitAdvanced`
(src/hooks/useAdvancedPredictionEngine.ts, lines 182-225) — here the
`[0.01, 0.9]` clamp is the last step before normalization. -/
def advDigitProbClamped (th : ℚ → ℚ) (F : AdvancedFeatures)
    (rv rr : Fin 10 → ℚ) (d : Fin 10) : ℚ :=
  let frequencyWeight : ℚ := 3/10
  let baseProb := histProb F.digitHistogram d
  let trendWeight : ℚ := 25/100
  let trendAdjustment := advTrendAdjustment th F d
  let volatilityWeight : ℚ := 2/10
  let volatilityAdjustment := advVolatilityAdjustment F rv d
  let regimeWeight : ℚ := 15/100
  let regimeAdjustment := advRegimeAdjustment F rr d
  let sequenceWeight : ℚ := 1/10
  let sequenceAdjustment := if d ∈ F.digitSequences then (1/10 : ℚ) else 0
  let probability :=
    baseProb * frequencyWeight +
    (baseProb + trendAdjustment) * trendWeight +
    (baseProb + volatilityAdjustment) * volatilityWeight +
    (baseProb + regimeAdjustment) * regimeWeight +
    (baseProb + sequenceAdjustment) * sequenceWeight
  clampQ (1/100) (9/10) probability

/-- The per-digit confidence of `predictDigitAdvanced`
(src/hooks/useAdvancedPredictionEngine.ts, lines 228-235): a sum of
feature-derived bonuses, independent of digit, probability and jitter. -/
def advDigitConfidence (F : AdvancedFeatures) : ℚ :=
  let strongTrendBonus : ℚ := if 1/2 < F.trendStrength then 2/10 else 0
  let lowVolatilityBonus : ℚ := if F.volatilityRegime = VolatilityRegime.low then 2/10 else 0
  let trendingMarketBonus : ℚ := if F.marketRegime = MarketRegime.trending then 1/10 else 0
  let spikeBonus : ℚ := if F.spikeIndicator then 1/10 else 0
  min ((2/5) + strongTrendBonus + lowVolatilityBonus + trendingMarketBonus + spikeBonus) 1

/-- `predictDigitAdvanced` (src/hooks/useAdvancedPredictionEngine.ts,
lines 178-255): the loop over digits 0-9 followed by normalization. -/
def predictDigitAdvanced (th : ℚ → ℚ) (F : AdvancedFeatures)
    (rv rr : Fin 10 → ℚ) : List AdvancedDigitPrediction :=
  let predictions := (List.finRange 10).map (fun d =>
    { digit := d
      probability := advDigitProbClamped th F rv rr d
      confidence := advDigitConfidence F
      timeHorizon := 10
      volatilityImpact := advVolatilityAdjustment F rv d
      trendAlignment := advTrendAdjustment th F d
      sequencePattern := decide (d ∈ F.digitSequences)
      marketRegimeAlignment := advRegimeAdjustment F rr d : AdvancedDigitPrediction })
  let total := (predictions.map (fun p => p.probability)).sum
  predictions.map (fun p => { p with probability := p.probability / total })

/-- The histogram-mass average over a digit set used by both band
predictors. -/
def bandBaseProb (h : Fin 10 → ℚ) (ds : List (Fin 10)) : ℚ :=
  (ds.map (fun d => histProb h d)).sum / (ds.length : ℚ)

/-- The secondary digit-set aggregates of the advanced band predictor. -/
structure OverUnderAnalysis where
  over0to8 : ℚ
  under9to1 : ℚ
  over2to9 : ℚ
  under0to7 : ℚ

/-- The advanced `BandPrediction` with its extra fields. -/
structure AdvancedBandPrediction where
  over2 : ℚ
  under7 : ℚ
  confidence : ℚ
  overUnderAnalysis : OverUnderAnalysis
  volatilityAdjusted : Bool
  trendBased : Bool

/-- `predictBandAdvanced` (src/hooks/useAdvancedPredictionEngine.ts,
lines 258-339).  `r` is the `Math.random()` draw of the volatile-regime
adjustment (line 311); the local `trendStrength` of line 294 is computed
by the source but never used, so it is omitted. -/
def predictBandAdvanced (F : AdvancedFeatures) (r : ℚ) : AdvancedBandPrediction :=
  let over2BaseProb := bandBaseProb F.digitHistogram [3, 4, 5, 6, 7, 8, 9]
  let under7BaseProb := bandBaseProb F.digitHistogram [0, 1, 2, 3, 4, 5, 6]
  let overUnder : OverUnderAnalysis :=
    { over0to8 := bandBaseProb F.digitHistogram [0, 1, 2, 3, 4, 5, 6, 7, 8]
      under9to1 := bandBaseProb F.digitHistogram [9, 1]
      over2to9 := bandBaseProb F.digitHistogram [2, 3, 4, 5, 6, 7, 8, 9]
      under0to7 := bandBaseProb F.digitHistogram [0, 1, 2, 3, 4, 5, 6, 7] }
  let recentTrend := (F.lastDeltas.drop (F.lastDeltas.length - 5)).sum
  let trendDirection := qsign recentTrend
  let volatilityFactor := volRegimeMultiplier F.volatilityRegime
  let volatilityBoost := volatilityFactor * (1/10)
  let regimeAdjustment :=
    if F.marketRegime = MarketRegime.trending then
      (if 0 < trendDirection then (1/10 : ℚ) else -(1/10))
    else if F.marketRegime = MarketRegime.volatile then (r - 1/2) * (15/100)
    else 0
  let over2Prob := clampQ (1/10) (9/10) (over2BaseProb + volatilityBoost + regimeAdjustment)
  let under7Prob := clampQ (1/10) (9/10) (under7BaseProb + volatilityBoost - regimeAdjustment)
  let confidence :=
    min (1/2 +
         (if F.volatilityRegime = VolatilityRegime.low then (2/10 : ℚ) else 0) +
         (if F.marketRegime = MarketRegime.trending then (15/100 : ℚ) else 0) +
         (if 1/10 < |over2Prob - under7Prob| then (15/100 : ℚ) else 0))
        1
  { over2 := over2Prob
    under7 := under7Prob
    confidence := confidence
    overUnderAnalysis := overUnder
    volatilityAdjusted := true
    trendBased := decide (F.marketRegime = MarketRegime.trending) }

/-! ## Example inputs used by the analyses below -/

/-- Ten ticks whose prices average to exactly zero (prices alternate
between 1 and -1).  Feeding this window to `extractFeatures` exercises the
`volatility = std / mean` division at `mean = 0`. -/
def zeroMeanTicks10 : List DerivTick :=
  [⟨1, 0⟩, ⟨-1, 0⟩, ⟨1, 0⟩, ⟨-1, 0⟩, ⟨1, 0⟩,
   ⟨-1, 0⟩, ⟨1, 0⟩, ⟨-1, 0⟩, ⟨1, 0⟩, ⟨-1, 0⟩]

/-- Twenty ticks whose prices average to exactly zero, for the advanced
extractor's 20-tick minimum. -/
def zeroMeanTicks20 : List DerivTick :=
  zeroMeanTicks10 ++ zeroMeanTicks10

/-! ## C6 — short inputs yield the empty state -/

/-- Claim C6: for every tick sequence shorter than the minimum length
(10 basic, 20 advanced), feature extraction returns the defined empty
state (`none`); the embedded functions are total, so no exception is
possible. -/
theorem extract_below_minimum (sq : ℚ → ℚ) (sym : String)
    (allVol : List (String × List DerivTick)) (t1 t2 : List DerivTick)
    (h1 : t1.length < 10) (h2 : t2.length < 20) :
    extractFeatures sq t1 = Option.none ∧
    extractAdvancedFeatures sq sym allVol t2 = Option.none := by
  constructor
  · rw [extractFeatures, if_pos h1]
  · rw [extractAdvancedFeatures, if_pos h2]

/-- Witness for C6 at the empty tick list. -/
theorem extract_below_minimum_witness :
    ([] : List DerivTick).length < 10 ∧ ([] : List DerivTick).length < 20 ∧
    (extractFeatures (fun q => q) [] = Option.none ∧
     extractAdvancedFeatures (fun q => q) "R_50" [] [] = Option.none) :=
  ⟨by decide, by decide,
   extract_below_minimum (fun q => q) "R_50" [] [] [] (by decide) (by decide)⟩

/-! ## C5 — a zero window mean is not detected -/

/-- Claim C5 (code bug): on a window whose price mean is exactly 0, both
extractors still return a snapshot — no degenerate-state detection exists;
the division `volatility = std / mean` of
src/hooks/usePredictionEngine.ts line 57 and
src/hooks/useAdvancedPredictionEngine.ts line 137 is reached with a zero
denominator (in JavaScript it produces `Infinity`/`NaN`, which then flows
into every prediction), and the analysis cycle is not skipped. -/
theorem zero_mean_snapshot_returned (sq : ℚ → ℚ) :
    ((extractFeatures sq zeroMeanTicks10).map PredictionFeatures.mean = some 0 ∧
     (extractFeatures sq zeroMeanTicks10).isSome = true) ∧
    ((extractAdvancedFeatures sq "R_50" [] zeroMeanTicks20).map
        AdvancedFeatures.mean = some 0 ∧
     (extractAdvancedFeatures sq "R_50" [] zeroMeanTicks20).isSome = true) := by
  refine ⟨⟨?_, ?_⟩, ⟨?_, ?_⟩⟩ <;>
    simp [extractFeatures, extractAdvancedFeatures, zeroMeanTicks10, zeroMeanTicks20]

/-! ## C10 — zero histogram entries are read as 0.1 -/

/-- `F` with histogram entry `d` replaced by `v` (all other fields kept). -/
def withHistEntry (F : PredictionFeatures) (d : Fin 10) (v : ℚ) :
    PredictionFeatures :=
  { F with digitHistogram := fun e => if e = d then v else F.digitHistogram e }

/-- `F` with histogram entry `d` replaced by `v` (advanced variant). -/
def withHistEntryAdv (F : AdvancedFeatures) (d : Fin 10) (v : ℚ) :
    AdvancedFeatures :=
  { F with digitHistogram := fun e => if e = d then v else F.digitHistogram e }

/-- Replacing a histogram entry by a value with the same `|| 0.1` reading
leaves every `histProb` read unchanged; in particular a zero entry and a
`0.1` entry are indistinguishable. -/
theorem histProb_set_entry (h : Fin 10 → ℚ) (d : Fin 10) (v : ℚ)
    (hv : orPointOne v = orPointOne (h d)) (e : Fin 10) :
    histProb (fun x => if x = d then v else h x) e = histProb h e := by
  by_cases he : e = d
  · subst he; simp [histProb, hv]
  · simp [histProb, he]

/-- Claim C10: when digit `d` has empirical frequency exactly 0, every
predictor reads its base probability through the `|| 0.1` fallback as 0.1
— a zero entry behaves exactly like a 0.1 entry, so the blend cannot
reproduce the zero empirical frequency.  Stated as: the base read is 0.1
(and differs from the empirical frequency), and replacing the zero entry
by 0.1 leaves all four predictor outputs unchanged. -/
theorem absent_digit_read_as_base (th : ℚ → ℚ) (F : PredictionFeatures)
    (AF : AdvancedFeatures) (rv ru rr : Fin 10 → ℚ) (r : ℚ) (d : Fin 10)
    (hF : F.digitHistogram d = 0) (hA : AF.digitHistogram d = 0) :
    histProb F.digitHistogram d = 1/10 ∧
    histProb F.digitHistogram d ≠ F.digitHistogram d ∧
    predictDigit th (withHistEntry F d (1/10)) rv ru = predictDigit th F rv ru ∧
    predictBand (withHistEntry F d (1/10)) = predictBand F ∧
    predictDigitAdvanced th (withHistEntryAdv AF d (1/10)) rv rr =
      predictDigitAdvanced th AF rv rr ∧
    predictBandAdvanced (withHistEntryAdv AF d (1/10)) r =
      predictBandAdvanced AF r := by
  refine ⟨?_, ?_, ?_, ?_, ?_, ?_⟩
  · simp [histProb, orPointOne, hF]
  · simp [histProb, orPointOne, hF]
  · simp [predictDigit, digitProbPreNorm, digitProbClamped, digitConfidence,
      withHistEntry, histProb_set_entry, orPointOne, hF]
  · simp [predictBand, withHistEntry, histProb_set_entry, orPointOne, hF]
  · simp [predictDigitAdvanced, advDigitProbClamped, advDigitConfidence,
      advVolatilityAdjustment, advTrendAdjustment, advRegimeAdjustment,
      withHistEntryAdv, histProb_set_entry, orPointOne, hA]
  · simp [predictBandAdvanced, bandBaseProb, withHistEntryAdv,
      histProb_set_entry, orPointOne, hA]

/-- Witness for C10: a snapshot in which digit 7 never occurs. -/
def exAbsent : PredictionFeatures :=
  { mean := 100
    std := 1
    lastDeltas := [0, 0, 0, 0, 0]
    signChanges := 4
    digitHistogram := fun e => if e = 0 then 1 else 0
    averageVelocity := 1/10
    spikeIndicator := false
    volatility := 1/100 }

/-- Witness for C10 (advanced): a snapshot in which digit 7 never
occurs. -/
def exAbsentAdv : AdvancedFeatures :=
  { mean := 100
    std := 1
    lastDeltas := [0, 0, 0, 0, 0, 0, 0, 0, 0, 0]
    signChanges := 4
    digitHistogram := fun e => if e = 0 then 1 else 0
    averageVelocity := 1/10
    spikeIndicator := false
    volatility := 1/100
    priceAcceleration := 0
    momentum := 0
    trendStrength := 0
    volatilityClusters := []
    digitSequences := [0]
    marketRegime := MarketRegime.ranging
    crossVolatilityCorrelation := []
    volatilityRegime := VolatilityRegime.medium }

/-- Witness for C10 at digit 7 of the example snapshots. -/
theorem absent_digit_read_as_base_witness :
    exAbsent.digitHistogram 7 = 0 ∧ exAbsentAdv.digitHistogram 7 = 0 ∧
    (histProb exAbsent.digitHistogram 7 = 1/10 ∧
     histProb exAbsent.digitHistogram 7 ≠ exAbsent.digitHistogram 7 ∧
     predictDigit (fun q => q) (withHistEntry exAbsent 7 (1/10))
         (fun _ => 1/2) (fun _ => 1/2) =
       predictDigit (fun q => q) exAbsent (fun _ => 1/2) (fun _ => 1/2) ∧
     predictBand (withHistEntry exAbsent 7 (1/10)) = predictBand exAbsent ∧
     predictDigitAdvanced (fun q => q) (withHistEntryAdv exAbsentAdv 7 (1/10))
         (fun _ => 1/2) (fun _ => 1/2) =
       predictDigitAdvanced (fun q => q) exAbsentAdv
         (fun _ => 1/2) (fun _ => 1/2) ∧
     predictBandAdvanced (withHistEntryAdv exAbsentAdv 7 (1/10)) (1/2) =
       predictBandAdvanced exAbsentAdv (1/2)) :=
  ⟨by decide, by decide,
   absent_digit_read_as_base (fun q => q) exAbsent exAbsentAdv
     (fun _ => 1/2) (fun _ => 1/2) (fun _ => 1/2) (1/2) 7
     (by decide) (by decide)⟩

/-! ## C7 — inactive trading suppresses only signal emission -/

/-- Claim C7: with `isActiveTrading = false` an analysis step never touches
the signal log, while the published feature snapshot, digit predictions and
band prediction are exactly those produced with `isActiveTrading = true`
on the same inputs. -/
theorem inactive_trading_no_signal (sq th : ℚ → ℚ) (rv ru : Fin 10 → ℚ)
    (sym : String) (ticks : List DerivTick) (st : RiskSettings)
    (newId now : ℕ) (s : EngineState) :
    (performAnalysis sq th rv ru sym ticks st false newId now s).signals = s.signals ∧
    (performAnalysis sq th rv ru sym ticks st false newId now s).features =
      (performAnalysis sq th rv ru sym ticks st true newId now s).features ∧
    (performAnalysis sq th rv ru sym ticks st false newId now s).digitPredictions =
      (performAnalysis sq th rv ru sym ticks st true newId now s).digitPredictions ∧
    (performAnalysis sq th rv ru sym ticks st false newId now s).bandPrediction =
      (performAnalysis sq th rv ru sym ticks st true newId now s).bandPrediction := by
  simp only [performAnalysis]
  split
  · exact ⟨rfl, rfl, rfl, rfl⟩
  split
  · exact ⟨rfl, rfl, rfl, rfl⟩
  split
  · exact ⟨by simp [evaluateConsensus], rfl, rfl, rfl⟩
  · exact ⟨rfl, rfl, rfl, rfl⟩

/-! ## C8 — every evaluation resets the cycle; at most one signal -/

/-- Whatever the vote outcome, the consensus evaluation leaves the signal
log unchanged or prepends exactly one signal (capped at 50 entries). -/
theorem evaluateConsensus_signals (st : RiskSettings) (active : Bool)
    (sym : String) (newId now : ℕ) (rs : List RunResult)
    (td : DigitPrediction) (bp : BandPrediction) (rc : ℕ) (s : EngineState) :
    evaluateConsensus st active sym newId now rs td bp rc s = s.signals ∨
    ∃ sig, evaluateConsensus st active sym newId now rs td bp rc s =
      (sig :: s.signals).take 50 := by
  simp only [evaluateConsensus, generateSignal]
  repeat' split
  all_goals first
    | exact Or.inl rfl
    | exact Or.inr ⟨_, rfl⟩

/-- Claim C8: when the incremented run counter reaches 4, the step
evaluates the consensus and — whether or not a signal fired, and whatever
`isActiveTrading` — resets the run counter to 0 and clears the
accumulator; the signal log gains at most one entry. -/
theorem consensus_cycle_reset (sq th : ℚ → ℚ) (rv ru : Fin 10 → ℚ)
    (sym : String) (ticks : List DerivTick) (st : RiskSettings)
    (active : Bool) (newId now : ℕ) (s : EngineState)
    (F : PredictionFeatures)
    (hlen : ¬ ticks.length < 10) (hF : extractFeatures sq ticks = some F)
    (hrc : 3 ≤ s.runCount) :
    (performAnalysis sq th rv ru sym ticks st active newId now s).runCount = 0 ∧
    (performAnalysis sq th rv ru sym ticks st active newId now s).runResults = [] ∧
    ((performAnalysis sq th rv ru sym ticks st active newId now s).signals = s.signals ∨
     ∃ sig, (performAnalysis sq th rv ru sym ticks st active newId now s).signals =
       (sig :: s.signals).take 50) := by
  have h4 : 4 ≤ s.runCount + 1 := by omega
  simp only [performAnalysis, hF, if_neg hlen, if_pos h4]
  exact ⟨trivial, trivial, evaluateConsensus_signals _ _ _ _ _ _ _ _ _ _⟩

/-! ## Bounds machinery for the predictors -/

/-- `Math.min (Math.max x lo) hi` lands in `[lo, hi]` whenever `lo ≤ hi`. -/
theorem clampQ_bounds (lo hi x : ℚ) (h : lo ≤ hi) :
    lo ≤ clampQ lo hi x ∧ clampQ lo hi x ≤ hi :=
  ⟨le_min (le_max_right x lo) h, min_le_right _ _⟩

/-- The clamp of line 110 really lands in `[0.01, 0.9]` — for every
snapshot, every jitter draw and every interpretation of `Math.tanh`. -/
theorem digitProbClamped_bounds (th : ℚ → ℚ) (F : PredictionFeatures)
    (rv : Fin 10 → ℚ) (d : Fin 10) :
    1/100 ≤ digitProbClamped th F rv d ∧ digitProbClamped th F rv d ≤ 9/10 := by
  simp only [digitProbClamped]
  exact clampQ_bounds _ _ _ (by norm_num)

/-- The advanced clamp of line 225 lands in `[0.01, 0.9]`. -/
theorem advDigitProbClamped_bounds (th : ℚ → ℚ) (F : AdvancedFeatures)
    (rv rr : Fin 10 → ℚ) (d : Fin 10) :
    1/100 ≤ advDigitProbClamped th F rv rr d ∧
    advDigitProbClamped th F rv rr d ≤ 9/10 := by
  simp only [advDigitProbClamped]
  exact clampQ_bounds _ _ _ (by norm_num)

/-- Bounds on the value the basic digit predictor feeds to normalization:
the uncertainty multiplier `1 - (0.1 + random * 0.2)` lies in `(0.7, 0.9]`,
so the pre-normalization value lies in `(0.007, 0.81]` — it can drop below
the 0.01 clamp floor. -/
theorem digitProbPreNorm_bounds (th : ℚ → ℚ) (F : PredictionFeatures)
    (rv ru : Fin 10 → ℚ) (d : Fin 10) (h0 : 0 ≤ ru d) (h1 : ru d < 1) :
    7/1000 < digitProbPreNorm th F rv ru d ∧
    digitProbPreNorm th F rv ru d ≤ 81/100 := by
  have hc := digitProbClamped_bounds th F rv d
  simp only [digitProbPreNorm]
  constructor
  · nlinarith [hc.1, hc.2]
  · nlinarith [hc.1, hc.2]

/-- Every pre-normalization value of the basic digit predictor is
positive. -/
theorem digitProbPreNorm_pos (th : ℚ → ℚ) (F : PredictionFeatures)
    (rv ru : Fin 10 → ℚ) (d : Fin 10) (h0 : 0 ≤ ru d) (h1 : ru d < 1) :
    0 < digitProbPreNorm th F rv ru d :=
  lt_trans (by norm_num) (digitProbPreNorm_bounds th F rv ru d h0 h1).1

/-- Normalizing ten positive values by their sum yields values summing to
exactly 1. -/
theorem normalized_sum_eq_one (f : Fin 10 → ℚ) (hf : ∀ d, 0 < f d) :
    ((List.finRange 10).map
      (fun d => f d / ((List.finRange 10).map f).sum)).sum = 1 := by
  rw [show (List.finRange 10) = [0, 1, 2, 3, 4, 5, 6, 7, 8, 9] from rfl]
  simp only [List.map_cons, List.map_nil, List.sum_cons, List.sum_nil, add_zero]
  have hT : 0 < f 0 + (f 1 + (f 2 + (f 3 + (f 4 + (f 5 + (f 6 + (f 7 +
      (f 8 + f 9)))))))) := by
    have h0 := hf 0; have h1 := hf 1; have h2 := hf 2; have h3 := hf 3
    have h4 := hf 4; have h5 := hf 5; have h6 := hf 6; have h7 := hf 7
    have h8 := hf 8; have h9 := hf 9
    linarith
  have hT' : f 0 + (f 1 + (f 2 + (f 3 + (f 4 + (f 5 + (f 6 + (f 7 +
      (f 8 + f 9)))))))) ≠ 0 := ne_of_gt hT
  field_simp

/-! ## C2 — the ten digit probabilities sum to exactly 1 -/

/-- The probabilities of `predictDigit` are exactly the pre-normalization
values divided by their total. -/
theorem predictDigit_prob_map (th : ℚ → ℚ) (F : PredictionFeatures)
    (rv ru : Fin 10 → ℚ) :
    (predictDigit th F rv ru).map (fun p => p.probability) =
      (List.finRange 10).map (fun d => digitProbPreNorm th F rv ru d /
        ((List.finRange 10).map (fun d => digitProbPreNorm th F rv ru d)).sum) := by
  simp [predictDigit, List.map_map, Function.comp_def]

/-- The probabilities of `predictDigitAdvanced` are exactly the clamped
blends divided by their total. -/
theorem predictDigitAdvanced_prob_map (th : ℚ → ℚ) (F : AdvancedFeatures)
    (rv rr : Fin 10 → ℚ) :
    (predictDigitAdvanced th F rv rr).map (fun p => p.probability) =
      (List.finRange 10).map (fun d => advDigitProbClamped th F rv rr d /
        ((List.finRange 10).map (fun d => advDigitProbClamped th F rv rr d)).sum) := by
  simp [predictDigitAdvanced, List.map_map, Function.comp_def]

/-- Claim C2: for every snapshot and every draw of the injected jitter,
the ten digit probabilities returned by `predictDigit` and by
`predictDigitAdvanced` sum to exactly 1 in exact arithmetic (hence in
particular within the 1e-9 floating-point tolerance).  The basic variant
needs the uncertainty draws to lie in `[0, 1)` — the range of
`Math.random()`; the advanced variant needs nothing. -/
theorem digit_probabilities_sum_to_one (th : ℚ → ℚ) (F : PredictionFeatures)
    (AF : AdvancedFeatures) (rv ru rv2 rr : Fin 10 → ℚ)
    (hru : ∀ d : Fin 10, 0 ≤ ru d ∧ ru d < 1) :
    ((predictDigit th F rv ru).map (fun p => p.probability)).sum = 1 ∧
    ((predictDigitAdvanced th AF rv2 rr).map (fun p => p.probability)).sum = 1 := by
  constructor
  · rw [predictDigit_prob_map]
    exact normalized_sum_eq_one _ (fun d =>
      digitProbPreNorm_pos th F rv ru d (hru d).1 (hru d).2)
  · rw [predictDigitAdvanced_prob_map]
    exact normalized_sum_eq_one _ (fun d =>
      lt_of_lt_of_le (by norm_num) (advDigitProbClamped_bounds th AF rv2 rr d).1)

/-- Witness for C2 at concrete snapshots and jitter draws. -/
theorem digit_probabilities_sum_to_one_witness :
    (∀ _d : Fin 10, 0 ≤ (1 : ℚ)/2 ∧ (1 : ℚ)/2 < 1) ∧
    ((predictDigit (fun q => q) exAbsent (fun _ => 1/2) (fun _ => 1/2)).map
        (fun p => p.probability)).sum = 1 ∧
    ((predictDigitAdvanced (fun q => q) exAbsentAdv (fun _ => 1/2)
        (fun _ => 1/2)).map (fun p => p.probability)).sum = 1 :=
  ⟨fun _ => ⟨by norm_num, by norm_num⟩,
   digit_probabilities_sum_to_one (fun q => q) exAbsent exAbsentAdv
     (fun _ => 1/2) (fun _ => 1/2) (fun _ => 1/2) (fun _ => 1/2)
     (fun _ => ⟨by norm_num, by norm_num⟩)⟩

/-! ## C3 — probability bounds before normalization -/

/-- Both returned band probabilities of the basic band predictor lie in
`[0.1, 0.9]`. -/
theorem predictBand_prob_bounds (F : PredictionFeatures) :
    (1/10 ≤ (predictBand F).over2 ∧ (predictBand F).over2 ≤ 9/10) ∧
    (1/10 ≤ (predictBand F).under7 ∧ (predictBand F).under7 ≤ 9/10) := by
  simp only [predictBand]
  exact ⟨clampQ_bounds _ _ _ (by norm_num), clampQ_bounds _ _ _ (by norm_num)⟩

/-- Both returned band probabilities of the advanced band predictor lie in
`[0.1, 0.9]`, for every draw of the volatile-regime jitter. -/
theorem predictBandAdvanced_prob_bounds (F : AdvancedFeatures) (r : ℚ) :
    (1/10 ≤ (predictBandAdvanced F r).over2 ∧
     (predictBandAdvanced F r).over2 ≤ 9/10) ∧
    (1/10 ≤ (predictBandAdvanced F r).under7 ∧
     (predictBandAdvanced F r).under7 ≤ 9/10) := by
  simp only [predictBandAdvanced]
  exact ⟨clampQ_bounds _ _ _ (by norm_num), clampQ_bounds _ _ _ (by norm_num)⟩

/-- A snapshot with a spike, digit 0 dominating the histogram, and a
trend-neutral tail (last three deltas sum to zero); consistent with a
window of mean 100 and standard deviation 1. -/
def exSpike : PredictionFeatures :=
  { mean := 100
    std := 1
    lastDeltas := [0, 0, -3, 0, 3]
    signChanges := 4
    digitHistogram := fun e => if e = 0 then 1 else 0
    averageVelocity := 1/2
    spikeIndicator := true
    volatility := 1/100 }

/-- Counterexample to C3 as stated: at the snapshot `exSpike`, with the
volatility jitter at its midpoint and the uncertainty jitter at 0 (both in
`Math.random()`'s range, and with `Math.tanh` evaluated only at 0 where it
is 0), digit 5's value entering the normalization step of `predictDigit`
is `0.009 < 0.01`: the `[0.01, 0.9]` clamp happens *before* the
uncertainty multiplication, not immediately before normalization. -/
theorem prenorm_escapes_clamp_floor :
    digitProbPreNorm (fun _ => 0) exSpike (fun _ => 1/2) (fun _ => 0) 5 = 9/1000 ∧
    ¬ (1/100 ≤ (9/1000 : ℚ)) := by
  constructor
  · norm_num [digitProbPreNorm, digitProbClamped, clampQ, histProb, orPointOne,
      exSpike, min_def, max_def,
      eq_false (show ¬ ((5 : Fin 10) = 0) from by decide),
      eq_false (show ¬ (((5 : Fin 10) : ℕ) = 0 ∨ ((5 : Fin 10) : ℕ) = 9) from by decide)]
  · norm_num

/-- Claim C3, amended: the basic digit blend is clamped to `[0.01, 0.9]`
*before* the uncertainty multiplier, so the value entering normalization
lies only in `(0.007, 0.81]`; the advanced digit value entering
normalization does lie in `[0.01, 0.9]`; and both band predictors return
band probabilities in `[0.1, 0.9]`. -/
theorem prediction_probability_bounds (th : ℚ → ℚ) (F : PredictionFeatures)
    (AF : AdvancedFeatures) (rv ru rv2 rr : Fin 10 → ℚ) (r : ℚ) (d : Fin 10)
    (h0 : 0 ≤ ru d) (h1 : ru d < 1) :
    (1/100 ≤ digitProbClamped th F rv d ∧ digitProbClamped th F rv d ≤ 9/10) ∧
    (7/1000 < digitProbPreNorm th F rv ru d ∧
     digitProbPreNorm th F rv ru d ≤ 81/100) ∧
    (1/100 ≤ advDigitProbClamped th AF rv2 rr d ∧
     advDigitProbClamped th AF rv2 rr d ≤ 9/10) ∧
    ((1/10 ≤ (predictBand F).over2 ∧ (predictBand F).over2 ≤ 9/10) ∧
     (1/10 ≤ (predictBand F).under7 ∧ (predictBand F).under7 ≤ 9/10)) ∧
    ((1/10 ≤ (predictBandAdvanced AF r).over2 ∧
      (predictBandAdvanced AF r).over2 ≤ 9/10) ∧
     (1/10 ≤ (predictBandAdvanced AF r).under7 ∧
      (predictBandAdvanced AF r).under7 ≤ 9/10)) :=
  ⟨digitProbClamped_bounds th F rv d,
   digitProbPreNorm_bounds th F rv ru d h0 h1,
   advDigitProbClamped_bounds th AF rv2 rr d,
   predictBand_prob_bounds F,
   predictBandAdvanced_prob_bounds AF r⟩

/-- Witness for C3 (amended) at digit 5 of the example snapshots. -/
theorem prediction_probability_bounds_witness :
    (0 ≤ (0 : ℚ) ∧ (0 : ℚ) < 1) ∧
    ((1/100 ≤ digitProbClamped (fun _ => 0) exSpike (fun _ => 1/2) 5 ∧
      digitProbClamped (fun _ => 0) exSpike (fun _ => 1/2) 5 ≤ 9/10) ∧
     (7/1000 < digitProbPreNorm (fun _ => 0) exSpike (fun _ => 1/2) (fun _ => 0) 5 ∧
      digitProbPreNorm (fun _ => 0) exSpike (fun _ => 1/2) (fun _ => 0) 5 ≤ 81/100) ∧
     (1/100 ≤ advDigitProbClamped (fun _ => 0) exAbsentAdv (fun _ => 1/2) (fun _ => 1/2) 5 ∧
      advDigitProbClamped (fun _ => 0) exAbsentAdv (fun _ => 1/2) (fun _ => 1/2) 5 ≤ 9/10) ∧
     ((1/10 ≤ (predictBand exSpike).over2 ∧ (predictBand exSpike).over2 ≤ 9/10) ∧
      (1/10 ≤ (predictBand exSpike).under7 ∧ (predictBand exSpike).under7 ≤ 9/10)) ∧
     ((1/10 ≤ (predictBandAdvanced exAbsentAdv (1/2)).over2 ∧
       (predictBandAdvanced exAbsentAdv (1/2)).over2 ≤ 9/10) ∧
      (1/10 ≤ (predictBandAdvanced exAbsentAdv (1/2)).under7 ∧
       (predictBandAdvanced exAbsentAdv (1/2)).under7 ≤ 9/10))) :=
  ⟨⟨by norm_num, by norm_num⟩,
   prediction_probability_bounds (fun _ => 0) exSpike exAbsentAdv
     (fun _ => 1/2) (fun _ => 0) (fun _ => 1/2) (fun _ => 1/2) (1/2) 5
     (by norm_num) (by norm_num)⟩

/-! ## C4 — confidence bounds and independence -/

/-- The basic band confidence lies in `[0.5, 1]`. -/
theorem predictBand_confidence_bounds (F : PredictionFeatures) :
    1/2 ≤ (predictBand F).confidence ∧ (predictBand F).confidence ≤ 1 := by
  simp only [predictBand]
  refine ⟨le_min ?_ (by norm_num), min_le_right _ _⟩
  split_ifs <;> norm_num

/-- The advanced digit confidence lies in `[0.4, 1]`. -/
theorem advDigitConfidence_bounds (F : AdvancedFeatures) :
    2/5 ≤ advDigitConfidence F ∧ advDigitConfidence F ≤ 1 := by
  simp only [advDigitConfidence]
  refine ⟨le_min ?_ (by norm_num), min_le_right _ _⟩
  split_ifs <;> norm_num

/-- The advanced band confidence lies in `[0.5, 1]`. -/
theorem predictBandAdvanced_confidence_bounds (F : AdvancedFeatures) (r : ℚ) :
    1/2 ≤ (predictBandAdvanced F r).confidence ∧
    (predictBandAdvanced F r).confidence ≤ 1 := by
  simp only [predictBandAdvanced]
  refine ⟨le_min ?_ (by norm_num), min_le_right _ _⟩
  split_ifs <;> norm_num

/-- The basic digit confidence is capped at 1 (but has no floor). -/
theorem digitConfidence_le_one (F : PredictionFeatures) :
    digitConfidence F ≤ 1 :=
  min_le_right _ _

/-- Every confidence in `predictDigit`'s output is the snapshot-only
score `digitConfidence F`: the same for all ten digits, untouched by the
probabilities, the normalization and the jitter. -/
theorem predictDigit_confidence_const (th : ℚ → ℚ) (F : PredictionFeatures)
    (rv ru : Fin 10 → ℚ) :
    (predictDigit th F rv ru).map (fun p => p.confidence) =
      List.replicate 10 (digitConfidence F) := by
  simp [predictDigit, List.map_map, Function.comp_def, List.map_const']

/-- Every confidence in `predictDigitAdvanced`'s output is the
snapshot-only score `advDigitConfidence F`. -/
theorem predictDigitAdvanced_confidence_const (th : ℚ → ℚ)
    (F : AdvancedFeatures) (rv rr : Fin 10 → ℚ) :
    (predictDigitAdvanced th F rv rr).map (fun p => p.confidence) =
      List.replicate 10 (advDigitConfidence F) := by
  simp [predictDigitAdvanced, List.map_map, Function.comp_def, List.map_const']

/-- A snapshot whose coefficient of variation is 1/2 (mean 2, std 1) —
well above the 0.05 at which the basic digit confidence crosses zero. -/
def exChoppy : PredictionFeatures :=
  { mean := 2
    std := 1
    lastDeltas := [0, 0, 0, 0, 0]
    signChanges := 10
    digitHistogram := fun _ => 1/10
    averageVelocity := 1/2
    spikeIndicator := false
    volatility := 1/2 }

/-- A flat snapshot with a uniform digit histogram. -/
def exUniform : PredictionFeatures :=
  { mean := 1
    std := 0
    lastDeltas := [0, 0, 0, 0, 0]
    signChanges := 3
    digitHistogram := fun _ => 1/10
    averageVelocity := 0
    spikeIndicator := false
    volatility := 0 }

/-- `exUniform` with the histogram concentrated on digit 9; every
non-histogram field is identical to `exUniform`. -/
def exNines : PredictionFeatures :=
  { exUniform with digitHistogram := fun e => if e = 9 then 1 else 0 }

/-- Counterexample to C4 as stated: (a) at `exChoppy` the basic digit
confidence is `-9`, far outside `[0, 1]` — the formula
`1 - volatility/0.05 + bonuses` has no lower clamp; (b) the band
confidence is *not* independent of the probability values: `exUniform`
and `exNines` agree on every field the rest of the confidence formula
reads (trend, spikes, sign changes, dispersion), yet their band
confidences differ, through the `|over2 - under7| > 0.1` spread bonus
computed from the clamped band probabilities. -/
theorem confidence_claim_counterexample :
    digitConfidence exChoppy = -9 ∧ ¬ (0 ≤ digitConfidence exChoppy) ∧
    (predictBand exUniform).confidence = 1/2 ∧
    (predictBand exNines).confidence = 7/10 ∧
    exUniform.signChanges = exNines.signChanges ∧
    exUniform.spikeIndicator = exNines.spikeIndicator ∧
    exUniform.lastDeltas = exNines.lastDeltas ∧
    exUniform.mean = exNines.mean ∧
    exUniform.std = exNines.std ∧
    exUniform.volatility = exNines.volatility := by
  have h1 : digitConfidence exChoppy = -9 := by
    norm_num [digitConfidence, exChoppy, min_def]
  refine ⟨h1, by rw [h1]; norm_num, ?_, ?_, rfl, rfl, rfl, rfl, rfl, rfl⟩
  · norm_num [predictBand, exUniform, histProb, orPointOne, qsign, clampQ,
      min_def, max_def]
  · norm_num +decide [predictBand, exNines, exUniform, histProb, orPointOne,
      qsign, clampQ, min_def, max_def,
      show |(9 : ℚ)/70| = 9/70 from abs_of_pos (by norm_num)]

/-- Claim C4, amended: every confidence is capped at 1 and the digit
confidences are functions of the snapshot alone (identical across the ten
digits, independent of the probabilities and of the jitter); the advanced
digit confidence lies in `[0.4, 1]` and both band confidences in
`[0.5, 1]`; but the basic digit confidence has no lower bound 0 (it is
negative whenever `volatility > 0.05` exceeds the bonuses), and the band
confidences do read the clamped band probabilities through the spread
bonus. -/
theorem confidence_bounds_amended (th : ℚ → ℚ) (F : PredictionFeatures)
    (AF : AdvancedFeatures) (rv ru rv2 rr : Fin 10 → ℚ) (r : ℚ) :
    digitConfidence F ≤ 1 ∧
    (predictDigit th F rv ru).map (fun p => p.confidence) =
      List.replicate 10 (digitConfidence F) ∧
    (1/2 ≤ (predictBand F).confidence ∧ (predictBand F).confidence ≤ 1) ∧
    (2/5 ≤ advDigitConfidence AF ∧ advDigitConfidence AF ≤ 1) ∧
    (predictDigitAdvanced th AF rv2 rr).map (fun p => p.confidence) =
      List.replicate 10 (advDigitConfidence AF) ∧
    (1/2 ≤ (predictBandAdvanced AF r).confidence ∧
     (predictBandAdvanced AF r).confidence ≤ 1) :=
  ⟨digitConfidence_le_one F,
   predictDigit_confidence_const th F rv ru,
   predictBand_confidence_bounds F,
   advDigitConfidence_bounds AF,
   predictDigitAdvanced_confidence_const th AF rv2 rr,
   predictBandAdvanced_confidence_bounds AF r⟩

/-! ## Witness inputs for the consensus claims -/

/-- Ten ticks at a constant price of 1. -/
def onesTicks10 : List DerivTick :=
  List.replicate 10 { price := 1, lastDigit := 0 }

/-- A run result voting for digit 5 with no band. -/
def exRun : RunResult := { digit := 5, band := Band.none }

/-- An engine state three runs into a cycle. -/
def exEngineState : EngineState :=
  { signals := []
    runCount := 3
    runResults := [exRun, exRun, exRun]
    features := some exUniform
    digitPredictions := []
    bandPrediction := Option.none
    isAnalyzing := true }

/-- The repository's default risk settings (threshold 0.75, 3 required
runs). -/
def exSettings : RiskSettings :=
  { probabilityThreshold := 3/4, requiredRuns := 3, stake := 1 }

/-- Witness for C8 at a concrete fourth analysis run. -/
theorem consensus_cycle_reset_witness :
    (¬ onesTicks10.length < 10) ∧ 3 ≤ exEngineState.runCount ∧
    ((performAnalysis (fun _ => 0) (fun _ => 0) (fun _ => 1/2) (fun _ => 1/2)
        "R_50" onesTicks10 exSettings true 1 0 exEngineState).runCount = 0 ∧
     (performAnalysis (fun _ => 0) (fun _ => 0) (fun _ => 1/2) (fun _ => 1/2)
        "R_50" onesTicks10 exSettings true 1 0 exEngineState).runResults = [] ∧
     ((performAnalysis (fun _ => 0) (fun _ => 0) (fun _ => 1/2) (fun _ => 1/2)
        "R_50" onesTicks10 exSettings true 1 0 exEngineState).signals =
          exEngineState.signals ∨
      ∃ sig, (performAnalysis (fun _ => 0) (fun _ => 0) (fun _ => 1/2)
          (fun _ => 1/2) "R_50" onesTicks10 exSettings true 1 0
          exEngineState).signals = (sig :: exEngineState.signals).take 50)) :=
  ⟨by decide, by decide,
   consensus_cycle_reset (fun _ => 0) (fun _ => 0) (fun _ => 1/2) (fun _ => 1/2)
     "R_50" onesTicks10 exSettings true 1 0 exEngineState
     ((extractFeatures (fun _ => 0) onesTicks10).getD exUniform)
     (by decide) rfl (by decide)⟩

/-! ## C9 — a digit at 100% frequency wins strictly -/

/-- Under a 100%-concentrated histogram, a trend-neutral tail
(`Σ` of the last three deltas `= 0`, so `Math.tanh` is applied at 0), no
spike and nonnegative volatility, the dominant digit's clamped blend
saturates at the 0.9 cap. -/
theorem dominant_digit_clamped_top (th : ℚ → ℚ) (F : PredictionFeatures)
    (rv : Fin 10 → ℚ) (d : Fin 10)
    (hh : ∀ e : Fin 10, F.digitHistogram e = if e = d then 1 else 0)
    (htr : (F.lastDeltas.drop (F.lastDeltas.length - 3)).sum = 0)
    (hsp : F.spikeIndicator = false)
    (hv : 0 ≤ F.volatility)
    (hth : th 0 = 0)
    (hrv : ∀ i : Fin 10, 0 ≤ rv i ∧ rv i < 1) :
    digitProbClamped th F rv d = 9/10 := by
  have hbase : histProb F.digitHistogram d = 1 := by
    simp [histProb, orPointOne, hh d]
  have hm0 : (0 : ℚ) ≤ min (F.volatility * 10) 1 :=
    le_min (by linarith) (by norm_num)
  have hm1 : min (F.volatility * 10) 1 ≤ 1 := min_le_right _ _
  have hr0 := (hrv d).1
  have hr1 := (hrv d).2
  have hva_lo : -(1/2) ≤ min (F.volatility * 10) 1 * (rv d - 1/2) := by
    nlinarith
  have hva_hi : min (F.volatility * 10) 1 * (rv d - 1/2) ≤ 1/2 := by
    nlinarith
  simp only [digitProbClamped, clampQ, hbase, htr, hsp, hth, zero_div,
    sub_self, abs_zero, Bool.false_eq_true, if_false,
    if_neg (show ¬ (2 : ℚ) < 0 by norm_num)]
  rw [max_eq_left (by nlinarith), min_eq_right (by nlinarith)]

/-- Under the same conditions, every other digit's clamped blend stays at
its raw value, at most `0.115`. -/
theorem nondominant_digit_clamped_le (th : ℚ → ℚ) (F : PredictionFeatures)
    (rv : Fin 10 → ℚ) (d : Fin 10)
    (hh : ∀ e : Fin 10, F.digitHistogram e = if e = d then 1 else 0)
    (htr : (F.lastDeltas.drop (F.lastDeltas.length - 3)).sum = 0)
    (hsp : F.spikeIndicator = false)
    (hv : 0 ≤ F.volatility)
    (hth : th 0 = 0)
    (hrv : ∀ i : Fin 10, 0 ≤ rv i ∧ rv i < 1)
    (e : Fin 10) (he : e ≠ d) :
    digitProbClamped th F rv e ≤ 23/200 := by
  have hbase : histProb F.digitHistogram e = 1/10 := by
    simp [histProb, orPointOne, hh e, he]
  have hm0 : (0 : ℚ) ≤ min (F.volatility * 10) 1 :=
    le_min (by linarith) (by norm_num)
  have hm1 : min (F.volatility * 10) 1 ≤ 1 := min_le_right _ _
  have hr0 := (hrv e).1
  have hr1 := (hrv e).2
  have hva_lo : -(1/2) ≤ min (F.volatility * 10) 1 * (rv e - 1/2) := by
    nlinarith
  have hva_hi : min (F.volatility * 10) 1 * (rv e - 1/2) ≤ 1/2 := by
    nlinarith
  simp only [digitProbClamped, clampQ, hbase, htr, hsp, hth, zero_div,
    sub_self, abs_zero, Bool.false_eq_true, if_false,
    if_neg (show ¬ (2 : ℚ) < 0 by norm_num)]
  exact le_trans (min_le_left _ _) (max_le (by nlinarith) (by norm_num))

/-- Under the same conditions the dominant digit's pre-normalization value
strictly exceeds every other digit's, for every uncertainty draw. -/
theorem dominant_digit_prenorm_gt (th : ℚ → ℚ) (F : PredictionFeatures)
    (rv ru : Fin 10 → ℚ) (d : Fin 10)
    (hh : ∀ e : Fin 10, F.digitHistogram e = if e = d then 1 else 0)
    (htr : (F.lastDeltas.drop (F.lastDeltas.length - 3)).sum = 0)
    (hsp : F.spikeIndicator = false)
    (hv : 0 ≤ F.volatility)
    (hth : th 0 = 0)
    (hrv : ∀ i : Fin 10, 0 ≤ rv i ∧ rv i < 1)
    (hru : ∀ i : Fin 10, 0 ≤ ru i ∧ ru i < 1)
    (e : Fin 10) (he : e ≠ d) :
    digitProbPreNorm th F rv ru e < digitProbPreNorm th F rv ru d := by
  have hd9 := dominant_digit_clamped_top th F rv d hh htr hsp hv hth hrv
  have he_hi := nondominant_digit_clamped_le th F rv d hh htr hsp hv hth hrv e he
  have he_lo := (digitProbClamped_bounds th F rv e).1
  have hrv_e0 := (hru e).1
  have hrv_e1 := (hru e).2
  have hrv_d0 := (hru d).1
  have hrv_d1 := (hru d).2
  simp only [digitProbPreNorm, hd9]
  nlinarith [he_hi, he_lo, hrv_e0, hrv_e1, hrv_d0, hrv_d1]

/-- A sum of ten positive mapped values over `finRange 10` is positive. -/
theorem finRange_map_sum_pos (f : Fin 10 → ℚ) (hf : ∀ i, 0 < f i) :
    0 < ((List.finRange 10).map f).sum := by
  rw [show (List.finRange 10) = [0, 1, 2, 3, 4, 5, 6, 7, 8, 9] from rfl]
  simp only [List.map_cons, List.map_nil, List.sum_cons, List.sum_nil, add_zero]
  have h0 := hf 0; have h1 := hf 1; have h2 := hf 2; have h3 := hf 3
  have h4 := hf 4; have h5 := hf 5; have h6 := hf 6; have h7 := hf 7
  have h8 := hf 8; have h9 := hf 9
  linarith

/-- Every member of `predictDigit`'s output carries the normalized
pre-normalization value of its own digit. -/
theorem predictDigit_mem_prob (th : ℚ → ℚ) (F : PredictionFeatures)
    (rv ru : Fin 10 → ℚ) (p : DigitPrediction)
    (hp : p ∈ predictDigit th F rv ru) :
    p.probability = digitProbPreNorm th F rv ru p.digit /
      ((List.finRange 10).map (fun i => digitProbPreNorm th F rv ru i)).sum := by
  simp only [predictDigit, List.map_map, List.mem_map, Function.comp_def,
    List.mem_finRange, true_and] at hp
  obtain ⟨i, hi⟩ := hp
  subst hi
  rfl

/-- Claim C9: when digit `d` has empirical frequency 1 (it occurs in 100%
of the window's ticks, so every other digit has frequency 0), the trend is
neutral (the last three deltas sum to 0), there is no spike and the
volatility is nonnegative, digit `d`'s probability in `predictDigit`'s
output is the strict maximum among the ten predictions — for every draw of
the volatility and uncertainty jitter in `Math.random()`'s range `[0,1)`
(`th` is `Math.tanh`, which satisfies `tanh 0 = 0`). -/
theorem dominant_digit_strict_max (th : ℚ → ℚ) (F : PredictionFeatures)
    (rv ru : Fin 10 → ℚ) (d : Fin 10)
    (hh : ∀ e : Fin 10, F.digitHistogram e = if e = d then 1 else 0)
    (htr : (F.lastDeltas.drop (F.lastDeltas.length - 3)).sum = 0)
    (hsp : F.spikeIndicator = false)
    (hv : 0 ≤ F.volatility)
    (hth : th 0 = 0)
    (hrv : ∀ i : Fin 10, 0 ≤ rv i ∧ rv i < 1)
    (hru : ∀ i : Fin 10, 0 ≤ ru i ∧ ru i < 1) :
    ∀ p ∈ predictDigit th F rv ru, ∀ q ∈ predictDigit th F rv ru,
      p.digit = d → q.digit ≠ d → q.probability < p.probability := by
  intro p hp q hq hpd hqd
  rw [predictDigit_mem_prob th F rv ru p hp,
    predictDigit_mem_prob th F rv ru q hq, hpd]
  have hT : 0 < ((List.finRange 10).map
      (fun i => digitProbPreNorm th F rv ru i)).sum :=
    finRange_map_sum_pos _ (fun i => digitProbPreNorm_pos th F rv ru i
      (hru i).1 (hru i).2)
  exact (div_lt_div_iff_of_pos_right hT).mpr
    (dominant_digit_prenorm_gt th F rv ru d hh htr hsp hv hth hrv hru
      q.digit hqd)

/-- A snapshot extracted from a window in which digit 3 occurs in every
tick, with a trend-neutral tail, no spike, and coefficient of variation
1/20. -/
def exDominant : PredictionFeatures :=
  { mean := 20
    std := 1
    lastDeltas := [0, 0, 0, 0, 0]
    signChanges := 3
    digitHistogram := fun e => if e = 3 then 1 else 0
    averageVelocity := 1/10
    spikeIndicator := false
    volatility := 1/20 }

/-- Witness for C9 at the digit-3-dominated snapshot, midpoint jitter. -/
theorem dominant_digit_strict_max_witness :
    (∀ e : Fin 10, exDominant.digitHistogram e = if e = 3 then 1 else 0) ∧
    (exDominant.lastDeltas.drop (exDominant.lastDeltas.length - 3)).sum = 0 ∧
    exDominant.spikeIndicator = false ∧
    0 ≤ exDominant.volatility ∧
    (∀ p ∈ predictDigit (fun _ => 0) exDominant (fun _ => 1/2) (fun _ => 1/2),
      ∀ q ∈ predictDigit (fun _ => 0) exDominant (fun _ => 1/2) (fun _ => 1/2),
        p.digit = 3 → q.digit ≠ 3 → q.probability < p.probability) :=
  ⟨fun _ => rfl, by simp [exDominant], rfl, by norm_num [exDominant],
   dominant_digit_strict_max (fun _ => 0) exDominant (fun _ => 1/2)
     (fun _ => 1/2) 3 (fun _ => rfl) (by simp [exDominant]) rfl
     (by norm_num [exDominant]) rfl
     (fun _ => ⟨by norm_num, by norm_num⟩)
     (fun _ => ⟨by norm_num, by norm_num⟩)⟩

/-! ## C1 — the signal decision rule of the four-run consensus -/

/-- The digit-signal condition of src/hooks/usePredictionEngine.ts,
line 288: the winning digit's vote count reaches `requiredRuns` and the
cycle's latest top-digit probability reaches `probabilityThreshold`. -/
def digitSignalCondition (st : RiskSettings) (rs : List RunResult)
    (topProb : ℚ) : Prop :=
  st.requiredRuns ≤ digitVoteCount rs (digitWinner rs) ∧
  st.probabilityThreshold ≤ topProb

/-- The band-signal condition of src/hooks/usePredictionEngine.ts,
line 291: the winning band is not the `'none'` sentinel, its vote count
reaches `requiredRuns`, and the latest band prediction's confidence
reaches `probabilityThreshold`. -/
def bandSignalCondition (st : RiskSettings) (rs : List RunResult)
    (bandConf : ℚ) : Prop :=
  bandConsensusOf rs ≠ Option.none ∧
  st.requiredRuns ≤ bandVotesOf rs ∧
  st.probabilityThreshold ≤ bandConf

instance (st : RiskSettings) (rs : List RunResult) (p : ℚ) :
    Decidable (digitSignalCondition st rs p) := by
  unfold digitSignalCondition; infer_instance

instance (st : RiskSettings) (rs : List RunResult) (c : ℚ) :
    Decidable (bandSignalCondition st rs c) := by
  unfold bandSignalCondition; infer_instance

/-- On the run that completes a cycle, the new signal log is exactly the
consensus evaluation of the accumulated results (including this run's). -/
theorem performAnalysis_signals_eval (sq th : ℚ → ℚ) (rv ru : Fin 10 → ℚ)
    (sym : String) (ticks : List DerivTick) (st : RiskSettings)
    (active : Bool) (newId now : ℕ) (s : EngineState)
    (F : PredictionFeatures)
    (hlen : ¬ ticks.length < 10) (hF : extractFeatures sq ticks = some F)
    (hrc : 3 ≤ s.runCount) :
    (performAnalysis sq th rv ru sym ticks st active newId now s).signals =
      evaluateConsensus st active sym newId now
        (s.runResults ++ [currentRunResult st (predictDigit th F rv ru) (predictBand F)])
        (topDigitPrediction (predictDigit th F rv ru)) (predictBand F)
        (s.runCount + 1) s := by
  have h4 : 4 ≤ s.runCount + 1 := by omega
  simp only [performAnalysis, hF, if_neg hlen, if_pos h4]

/-- When active and the digit condition holds, the evaluation prepends
exactly the digit signal. -/
theorem evaluateConsensus_digit_fires (st : RiskSettings) (sym : String)
    (newId now : ℕ) (rs : List RunResult) (td : DigitPrediction)
    (bp : BandPrediction) (rc : ℕ) (s : EngineState)
    (f0 : PredictionFeatures) (hfe : s.features = some f0)
    (hDC : digitSignalCondition st rs td.probability) :
    evaluateConsensus st true sym newId now rs td bp rc s =
      ({ id := newId
         symbol := sym
         timestamp := now
         type := SignalType.exact_digit
         predicted_digit := some (digitWinner rs)
         predicted_band := Option.none
         confidence := if td.confidence = 0 then 1/2 else td.confidence
         runs := if rc = 0 then 1 else rc
         status := SignalStatus.pending
         features := f0 : TradingSignal } :: s.signals).take 50 := by
  obtain ⟨h1, h2⟩ := hDC
  simp only [evaluateConsensus, generateSignal, hfe, if_pos (And.intro h1 h2),
    if_true]

/-- When active, the digit condition fails and the band condition holds,
the evaluation prepends exactly the band signal for the winning band. -/
theorem evaluateConsensus_band_fires (st : RiskSettings) (sym : String)
    (newId now : ℕ) (rs : List RunResult) (td : DigitPrediction)
    (bp : BandPrediction) (rc : ℕ) (s : EngineState)
    (f0 : PredictionFeatures) (b : Band) (hfe : s.features = some f0)
    (hDC : ¬ digitSignalCondition st rs td.probability)
    (hb : bandConsensusOf rs = some b)
    (hv : st.requiredRuns ≤ bandVotesOf rs)
    (hc : st.probabilityThreshold ≤ bp.confidence) :
    evaluateConsensus st true sym newId now rs td bp rc s =
      ({ id := newId
         symbol := sym
         timestamp := now
         type := SignalType.over_under
         predicted_digit := Option.none
         predicted_band := some b
         confidence := if bp.confidence = 0 then 1/2 else bp.confidence
         runs := if rc = 0 then 1 else rc
         status := SignalStatus.pending
         features := f0 : TradingSignal } :: s.signals).take 50 := by
  rw [digitSignalCondition] at hDC
  simp only [evaluateConsensus, generateSignal, hfe, if_neg hDC, hb,
    if_pos (And.intro hv hc), if_true]

/-- When active and neither condition holds, the evaluation leaves the
signal log unchanged. -/
theorem evaluateConsensus_no_signal (st : RiskSettings) (sym : String)
    (newId now : ℕ) (rs : List RunResult) (td : DigitPrediction)
    (bp : BandPrediction) (rc : ℕ) (s : EngineState)
    (hDC : ¬ digitSignalCondition st rs td.probability)
    (hBC : ¬ bandSignalCondition st rs bp.confidence) :
    evaluateConsensus st true sym newId now rs td bp rc s = s.signals := by
  rw [digitSignalCondition] at hDC
  rw [bandSignalCondition] at hBC
  push_neg at hBC
  simp only [evaluateConsensus, if_neg hDC, if_true]
  cases hb : bandConsensusOf rs with
  | none => rfl
  | some b =>
    dsimp only
    rw [if_neg]
    intro hvc
    exact absurd hvc.2 (not_le.mpr (hBC (by simp [hb]) hvc.1))

/-- Claim C1: on the run that brings the accumulated count to 4, with the
engine actively trading (and a previously published snapshot `f0` in the
React state the signal constructor reads), the decision is exactly:
a digit signal is appended iff the winning digit's vote count reaches
`requiredRuns` and the cycle's latest top-digit probability reaches
`probabilityThreshold`; only if that digit condition fails is a band
signal considered, which is appended iff the winning band is not `none`,
its vote count reaches `requiredRuns`, and the latest band prediction's
confidence reaches `probabilityThreshold`; otherwise the log is
unchanged. -/
theorem consensus_signal_rule (sq th : ℚ → ℚ) (rv ru : Fin 10 → ℚ)
    (sym : String) (ticks : List DerivTick) (st : RiskSettings)
    (newId now : ℕ) (s : EngineState) (F f0 : PredictionFeatures)
    (hlen : ¬ ticks.length < 10) (hF : extractFeatures sq ticks = some F)
    (hrc : 3 ≤ s.runCount) (hfe : s.features = some f0) :
    (digitSignalCondition st (s.runResults ++ [currentRunResult st (predictDigit th F rv ru) (predictBand F)]) (topDigitPrediction (predictDigit th F rv ru)).probability →
      (performAnalysis sq th rv ru sym ticks st true newId now s).signals =
        ({ id := newId
           symbol := sym
           timestamp := now
           type := SignalType.exact_digit
           predicted_digit := some (digitWinner (s.runResults ++ [currentRunResult st (predictDigit th F rv ru) (predictBand F)]))
           predicted_band := Option.none
           confidence := if (topDigitPrediction (predictDigit th F rv ru)).confidence = 0 then 1/2 else (topDigitPrediction (predictDigit th F rv ru)).confidence
           runs := s.runCount + 1
           status := SignalStatus.pending
           features := f0 : TradingSignal } :: s.signals).take 50) ∧
    (¬ digitSignalCondition st (s.runResults ++ [currentRunResult st (predictDigit th F rv ru) (predictBand F)]) (topDigitPrediction (predictDigit th F rv ru)).probability →
     bandSignalCondition st (s.runResults ++ [currentRunResult st (predictDigit th F rv ru) (predictBand F)]) (predictBand F).confidence →
      ∃ b, bandConsensusOf (s.runResults ++ [currentRunResult st (predictDigit th F rv ru) (predictBand F)]) = some b ∧
        (performAnalysis sq th rv ru sym ticks st true newId now s).signals =
          ({ id := newId
             symbol := sym
             timestamp := now
             type := SignalType.over_under
             predicted_digit := Option.none
             predicted_band := some b
             confidence := if (predictBand F).confidence = 0 then 1/2
                           else (predictBand F).confidence
             runs := s.runCount + 1
             status := SignalStatus.pending
             features := f0 : TradingSignal } :: s.signals).take 50) ∧
    (¬ digitSignalCondition st (s.runResults ++ [currentRunResult st (predictDigit th F rv ru) (predictBand F)]) (topDigitPrediction (predictDigit th F rv ru)).probability →
     ¬ bandSignalCondition st (s.runResults ++ [currentRunResult st (predictDigit th F rv ru) (predictBand F)]) (predictBand F).confidence →
      (performAnalysis sq th rv ru sym ticks st true newId now s).signals = s.signals) := by
  refine ⟨?_, ?_, ?_⟩
  · intro hDC
    rw [performAnalysis_signals_eval sq th rv ru sym ticks st true newId now s
        F hlen hF hrc,
      evaluateConsensus_digit_fires st sym newId now (s.runResults ++ [currentRunResult st (predictDigit th F rv ru) (predictBand F)]) (topDigitPrediction (predictDigit th F rv ru)) (predictBand F)
        (s.runCount + 1) s f0 hfe hDC,
      if_neg (show ¬ s.runCount + 1 = 0 by omega)]
  · intro hDC hBC
    have hBC' := hBC
    simp only [bandSignalCondition] at hBC'
    obtain ⟨hb0, hv, hc⟩ := hBC'
    cases hb : bandConsensusOf (s.runResults ++ [currentRunResult st (predictDigit th F rv ru) (predictBand F)]) with
    | none => exact absurd hb hb0
    | some b =>
      refine ⟨b, rfl, ?_⟩
      rw [performAnalysis_signals_eval sq th rv ru sym ticks st true newId now s
          F hlen hF hrc,
        evaluateConsensus_band_fires st sym newId now (s.runResults ++ [currentRunResult st (predictDigit th F rv ru) (predictBand F)]) (topDigitPrediction (predictDigit th F rv ru)) (predictBand F)
          (s.runCount + 1) s f0 b hfe hDC hb hv hc,
        if_neg (show ¬ s.runCount + 1 = 0 by omega)]
  · intro hDC hBC
    rw [performAnalysis_signals_eval sq th rv ru sym ticks st true newId now s
        F hlen hF hrc,
      evaluateConsensus_no_signal st sym newId now (s.runResults ++ [currentRunResult st (predictDigit th F rv ru) (predictBand F)]) (topDigitPrediction (predictDigit th F rv ru)) (predictBand F)
        (s.runCount + 1) s hDC hBC]

/-- Witness for C1 at a concrete fourth analysis run. -/
theorem consensus_signal_rule_witness :
    (¬ onesTicks10.length < 10) ∧ 3 ≤ exEngineState.runCount ∧
    exEngineState.features = some exUniform ∧
    ((digitSignalCondition exSettings (exEngineState.runResults ++ [currentRunResult exSettings (predictDigit (fun _ => 0) ((extractFeatures (fun _ => 0) onesTicks10).getD exUniform) (fun _ => 1/2) (fun _ => 1/2)) (predictBand ((extractFeatures (fun _ => 0) onesTicks10).getD exUniform))]) (topDigitPrediction (predictDigit (fun _ => 0) ((extractFeatures (fun _ => 0) onesTicks10).getD exUniform) (fun _ => 1/2) (fun _ => 1/2))).probability →
      (performAnalysis (fun _ => 0) (fun _ => 0) (fun _ => 1/2) (fun _ => 1/2) "R_50" onesTicks10 exSettings true 1 0 exEngineState).signals =
        ({ id := 1
           symbol := "R_50"
           timestamp := 0
           type := SignalType.exact_digit
           predicted_digit := some (digitWinner (exEngineState.runResults ++ [currentRunResult exSettings (predictDigit (fun _ => 0) ((extractFeatures (fun _ => 0) onesTicks10).getD exUniform) (fun _ => 1/2) (fun _ => 1/2)) (predictBand ((extractFeatures (fun _ => 0) onesTicks10).getD exUniform))]))
           predicted_band := Option.none
           confidence := if (topDigitPrediction (predictDigit (fun _ => 0) ((extractFeatures (fun _ => 0) onesTicks10).getD exUniform) (fun _ => 1/2) (fun _ => 1/2))).confidence = 0 then 1/2 else (topDigitPrediction (predictDigit (fun _ => 0) ((extractFeatures (fun _ => 0) onesTicks10).getD exUniform) (fun _ => 1/2) (fun _ => 1/2))).confidence
           runs := exEngineState.runCount + 1
           status := SignalStatus.pending
           features := exUniform : TradingSignal } :: exEngineState.signals).take 50) ∧
    (¬ digitSignalCondition exSettings (exEngineState.runResults ++ [currentRunResult exSettings (predictDigit (fun _ => 0) ((extractFeatures (fun _ => 0) onesTicks10).getD exUniform) (fun _ => 1/2) (fun _ => 1/2)) (predictBand ((extractFeatures (fun _ => 0) onesTicks10).getD exUniform))]) (topDigitPrediction (predictDigit (fun _ => 0) ((extractFeatures (fun _ => 0) onesTicks10).getD exUniform) (fun _ => 1/2) (fun _ => 1/2))).probability →
     bandSignalCondition exSettings (exEngineState.runResults ++ [currentRunResult exSettings (predictDigit (fun _ => 0) ((extractFeatures (fun _ => 0) onesTicks10).getD exUniform) (fun _ => 1/2) (fun _ => 1/2)) (predictBand ((extractFeatures (fun _ => 0) onesTicks10).getD exUniform))]) (predictBand ((extractFeatures (fun _ => 0) onesTicks10).getD exUniform)).confidence →
      ∃ b, bandConsensusOf (exEngineState.runResults ++ [currentRunResult exSettings (predictDigit (fun _ => 0) ((extractFeatures (fun _ => 0) onesTicks10).getD exUniform) (fun _ => 1/2) (fun _ => 1/2)) (predictBand ((extractFeatures (fun _ => 0) onesTicks10).getD exUniform))]) = some b ∧
        (performAnalysis (fun _ => 0) (fun _ => 0) (fun _ => 1/2) (fun _ => 1/2) "R_50" onesTicks10 exSettings true 1 0 exEngineState).signals =
          ({ id := 1
             symbol := "R_50"
             timestamp := 0
             type := SignalType.over_under
             predicted_digit := Option.none
             predicted_band := some b
             confidence := if (predictBand ((extractFeatures (fun _ => 0) onesTicks10).getD exUniform)).confidence = 0 then 1/2
                           else (predictBand ((extractFeatures (fun _ => 0) onesTicks10).getD exUniform)).confidence
             runs := exEngineState.runCount + 1
             status := SignalStatus.pending
             features := exUniform : TradingSignal } :: exEngineState.signals).take 50) ∧
    (¬ digitSignalCondition exSettings (exEngineState.runResults ++ [currentRunResult exSettings (predictDigit (fun _ => 0) ((extractFeatures (fun _ => 0) onesTicks10).getD exUniform) (fun _ => 1/2) (fun _ => 1/2)) (predictBand ((extractFeatures (fun _ => 0) onesTicks10).getD exUniform))]) (topDigitPrediction (predictDigit (fun _ => 0) ((extractFeatures (fun _ => 0) onesTicks10).getD exUniform) (fun _ => 1/2) (fun _ => 1/2))).probability →
     ¬ bandSignalCondition exSettings (exEngineState.runResults ++ [currentRunResult exSettings (predictDigit (fun _ => 0) ((extractFeatures (fun _ => 0) onesTicks10).getD exUniform) (fun _ => 1/2) (fun _ => 1/2)) (predictBand ((extractFeatures (fun _ => 0) onesTicks10).getD exUniform))]) (predictBand ((extractFeatures (fun _ => 0) onesTicks10).getD exUniform)).confidence →
      (performAnalysis (fun _ => 0) (fun _ => 0) (fun _ => 1/2) (fun _ => 1/2) "R_50" onesTicks10 exSettings true 1 0 exEngineState).signals = exEngineState.signals)) :=
  ⟨by decide, by decide, rfl,
   consensus_signal_rule (fun _ => 0) (fun _ => 0) (fun _ => 1/2) (fun _ => 1/2)
     "R_50" onesTicks10 exSettings 1 0 exEngineState
     ((extractFeatures (fun _ => 0) onesTicks10).getD exUniform) exUniform
     (by decide) rfl (by decide) rfl⟩
